import Mathlib

/-!
Shallow embedding of `milvus/client/abstract.py` (pymilvus client abstraction
layer): the `TopKQueryResult` result materializer, the `Range` date-range
value object and the `IndexParam` value object, together with proofs of the
client-observable properties of these operations.

Python floats only appear as opaque payload (the `distance` field of a match);
they are carried as their rendered decimal string, which is all the embedded
operations ever consume.
-/

set_option autoImplicit false

namespace PyMilvus

/-- Error kinds surfaced by the embedded Python code: `ParamError` raised by
value-object constructors, `TimeoutError` raised by `Future.result`,
`AttributeError` for a missing attribute, `IndexError` for out-of-bounds
indexing, `ValueError` for an invalid enum conversion. -/
inductive PyError where
  | paramError (msg : String)
  | timeoutError
  | attributeError
  | indexError
  | valueError
  deriving DecidableEq, Repr

/-- One ranked match inside a per-query sub-response: an integer id and a
distance score (a float, carried as its rendered decimal string since the
client code only ever formats it). -/
structure QueryResult where
  id : Int
  distance : String
  deriving DecidableEq, Repr, Inhabited

/-- One per-query sub-response of the raw multi-query response: its
`query_result_arrays` field holds the ranked matches for that query. -/
structure SubResult where
  query_result_arrays : List QueryResult
  deriving DecidableEq, Repr, Inhabited

/-- The raw multi-query response object: its `topk_query_result` field holds
one sub-response per submitted query, in submission order. -/
structure TopKQueryResponse where
  topk_query_result : List SubResult
  deriving DecidableEq, Repr, Inhabited

/-- The `raw_source` handed to the `TopKQueryResult` constructor: either a
completed raw response, or (in async mode) a future that completes at time
`completesAt` with response `resp`; `Future.result(timeout)` succeeds iff
`completesAt ≤ timeout`, mirroring `concurrent.futures`. -/
inductive RawSource where
  | response (r : TopKQueryResponse)
  | future (completesAt : Nat) (resp : TopKQueryResponse)
  deriving DecidableEq, Repr

/-- `TopKQueryResult._create_array`: for each per-query sub-response of the
raw response, copy its `query_result_arrays` verbatim and append it as one
row. -/
def createArray (raw : TopKQueryResponse) : List (List QueryResult) :=
  raw.topk_query_result.map fun topk_result => topk_result.query_result_arrays

/-- The state of a `TopKQueryResult` object: the raw source, the `async_` and
`lazy_` keyword flags, and the materialized row array. -/
structure TopKQueryResult where
  _raw : RawSource
  _async : Bool
  _lazy : Bool
  _array : List (List QueryResult)
  deriving DecidableEq, Repr

namespace TopKQueryResult

/-- `TopKQueryResult.__init__(raw_source, async_=…, lazy_=…)`: the array is
materialized eagerly via `_create_array` unless `async_` or `lazy_` is set,
in which case it is `[]`. Eagerly materializing from a future is `none`
(Python would raise `AttributeError`: a future has no `topk_query_result`). -/
def init (raw_source : RawSource) (async_ lazy_ : Bool) : Option TopKQueryResult :=
  if async_ || lazy_ then
    some { _raw := raw_source, _async := async_, _lazy := lazy_, _array := [] }
  else
    match raw_source with
    | RawSource.response r =>
        some { _raw := raw_source, _async := async_, _lazy := lazy_, _array := createArray r }
    | RawSource.future _ _ => none

/-- `TopKQueryResult.shape`: `(row, column)` where `row = len(self._array)`
and `column` is `0` when there are no rows, else the length of row 0. -/
def shape (q : TopKQueryResult) : Nat × Nat :=
  let row := q._array.length
  let column := if row = 0 then 0 else (q._array.headD []).length
  (row, column)

/-- `TopKQueryResult.__len__`: `len(self._array)`. -/
def len (q : TopKQueryResult) : Nat :=
  q._array.length

/-- `TopKQueryResult.__iter__`: iteration over `self._array` (a fresh, finite
iteration over the materialized rows from row 0). -/
def iter (q : TopKQueryResult) : List (List QueryResult) :=
  q._array

/-- `TopKQueryResult.result(timeout)`: when `self._async` is true, resolve the
raw future with the given timeout and wrap the completed response in a new
`TopKQueryResult(response, lazy_=self._lazy, async_=False)`; a future that has
not completed within `timeout` raises `TimeoutError`. When `self._async` is
false, return `self` unchanged. -/
def result (q : TopKQueryResult) (timeout : Nat) : Except PyError TopKQueryResult :=
  if q._async = true then
    match q._raw with
    | RawSource.future completesAt resp =>
        if completesAt ≤ timeout then
          match init (RawSource.response resp) false q._lazy with
          | some q2 => Except.ok q2
          | none => Except.error PyError.attributeError
        else
          Except.error PyError.timeoutError
    | RawSource.response _ => Except.error PyError.attributeError
  else
    Except.ok q

end TopKQueryResult

/-- Python list indexing `xs[i]` for an integer `i`: a negative index counts
from the end (`i + len(xs)`); an index out of bounds after that adjustment
raises `IndexError`. -/
def pyGetItem {α : Type} (xs : List α) (i : Int) : Except PyError α :=
  let j : Int := if i < 0 then i + xs.length else i
  if 0 ≤ j then
    match xs[j.toNat]? with
    | some x => Except.ok x
    | none => Except.error PyError.indexError
  else
    Except.error PyError.indexError

/-- `TopKQueryResult.__getitem__(item)`: delegate to list indexing on
`self._array`. -/
def TopKQueryResult.getItem (q : TopKQueryResult) (i : Int) : Except PyError (List QueryResult) :=
  pyGetItem q._array i

/-- The per-match formatter in `TopKQueryResult.__repr__`:
`lam = lambda x: "(id:\x7b\x7d, distance:\x7b\x7d)".format(x.id, x.distance)`. -/
def lamRepr (x : QueryResult) : String :=
  "(id:" ++ toString x.id ++ ", distance:" ++ x.distance ++ ")"

/-- One loop iteration of the large-result branch of `__repr__`: render a row
as `" [ "` plus its first (at most) 3 matches joined by `",\n   "`, the
`",\n   ..."` omission marker, `"\n   "` plus the row's last match, and
`" ]\n\n"`; `topk[-1]` on an empty row raises `IndexError`. -/
def bigRowRepr (topk : List QueryResult) : Except PyError String :=
  match topk.getLast? with
  | none => Except.error PyError.indexError
  | some last =>
      Except.ok (" [ " ++ String.intercalate ",\n   " ((topk.take 3).map lamRepr)
        ++ ",\n   ..." ++ "\n   " ++ lamRepr last ++ " ]\n\n")

/-- The `middle` accumulation loop of the large-result branch of `__repr__`:
concatenate `bigRowRepr` over the given rows, aborting at the first
`IndexError`. -/
def bigRepr (rows : List (List QueryResult)) : Except PyError String :=
  match rows with
  | [] => Except.ok ""
  | topk :: rest =>
      match bigRowRepr topk with
      | Except.error e => Except.error e
      | Except.ok s =>
          match bigRepr rest with
          | Except.error e => Except.error e
          | Except.ok s2 => Except.ok (s ++ s2)

/-- The `spaces` literal appended in the large-result branch of `__repr__`. -/
def reprSpaces : String :=
  "        ......\n        ......"

/-- Full rendering of one row in the small-result branch of `__repr__`:
`"[\n%s\n]" % ",\n".join(map(lam, self[i]))`. -/
def fullRowRepr (row : List QueryResult) : String :=
  "[\n" ++ String.intercalate ",\n" (row.map lamRepr) ++ "\n]"

/-- `TopKQueryResult.__repr__`: when more than 5 rows exist, render only the
first 3 rows via the bounded `bigRowRepr` followed by the `spaces` marker;
otherwise render every row in full. The result is `Except` because the
large-result branch indexes `topk[-1]`, which raises on an empty row. -/
def TopKQueryResult.pyRepr (q : TopKQueryResult) : Except PyError String :=
  if q.len > 5 then
    match bigRepr (q._array.take 3) with
    | Except.error e => Except.error e
    | Except.ok middle => Except.ok ("[\n" ++ middle ++ reprSpaces ++ "\n]")
  else
    Except.ok ("[\n" ++ String.intercalate ",\n" (q._array.map fullRowRepr) ++ "\n]")

/-- A canonical date value, already normalized: the signed day ordinal of the
date. Only the order of dates matters to the embedded operations. -/
structure PyDate where
  ordinal : Int
  deriving DecidableEq, Repr

/-- The accepted inputs of `Range.__init__`: a `"YY-MM-DD"` string, a
`datetime.date` or a `datetime.datetime`, each denoting a date. -/
inductive DateInput where
  | fromStr (d : PyDate)
  | fromDate (d : PyDate)
  | fromDatetime (d : PyDate)
  deriving DecidableEq, Repr

/-- Modelled from the spec: `milvus/client/utils.py` (not under `src/`)
defines `parser_range_date`, which normalizes a string/date/datetime input
to a canonical date representation. -/
def parser_range_date (input : DateInput) : PyDate :=
  match input with
  | DateInput.fromStr d => d
  | DateInput.fromDate d => d
  | DateInput.fromDatetime d => d

/-- Modelled from the spec: `milvus/client/utils.py` (not under `src/`)
defines `is_legal_date_range`, which accepts exactly the pairs with
`start_date ≤ end_date`. -/
def is_legal_date_range (start_date end_date : PyDate) : Bool :=
  start_date.ordinal ≤ end_date.ordinal

/-- The `Range` value object: normalized start and end dates. -/
structure Range where
  start_date : PyDate
  end_date : PyDate
  deriving DecidableEq, Repr

/-- `Range.__init__(start_date, end_date)`: parse both dates, then store them
when `is_legal_date_range` holds and otherwise raise `ParamError`. -/
def Range.init (start_date end_date : DateInput) : Except PyError Range :=
  let s := parser_range_date start_date
  let e := parser_range_date end_date
  if is_legal_date_range s e then
    Except.ok { start_date := s, end_date := e }
  else
    Except.error (PyError.paramError
      "The start-date should be smaller than or equal to end-date!")

/-- `IndexType` from `milvus/client/types.py`, as enumerated in the source
docstrings: 0-invalid, 1-flat, 2-ivflat, 3-IVF_SQ8, 4-MIX_NSG. -/
inductive IndexType where
  | INVALID
  | FLAT
  | IVFLAT
  | IVF_SQ8
  | MIX_NSG
  deriving DecidableEq, Repr

/-- `IndexType(n)` for an integer `n`: the enum member with that value, or
`none` (Python raises `ValueError`) when no member has value `n`. -/
def IndexType.ofInt (n : Int) : Option IndexType :=
  if n = 0 then some IndexType.INVALID
  else if n = 1 then some IndexType.FLAT
  else if n = 2 then some IndexType.IVFLAT
  else if n = 3 then some IndexType.IVF_SQ8
  else if n = 4 then some IndexType.MIX_NSG
  else none

/-- The `index_type` argument of `IndexParam.__init__` as the code inspects
it: either a plain integer (converted through `IndexType(...)`) or an
`IndexType` member. -/
inductive IndexTypeArg where
  | ofInt (n : Int)
  | ofEnum (t : IndexType)
  deriving DecidableEq, Repr

/-- The `IndexParam` value object: stored table name, index type and nlist. -/
structure IndexParam where
  _table_name : String
  _index_type : IndexType
  _nlist : Int
  deriving DecidableEq, Repr

/-- `IndexParam.__init__(table_name, index_type, nlist)`: a `None` table name
raises `ParamError`; any string table name (the empty string included) is
stored as is. An integer index type is converted through `IndexType(...)`
(raising `ValueError` when out of range); an index type that is not a valid
`IndexType` member or equals `IndexType.INVALID` raises `ParamError`. `nlist`
is stored unchecked. -/
def IndexParam.init (table_name : Option String) (index_type : IndexTypeArg)
    (nlist : Int) : Except PyError IndexParam :=
  match table_name with
  | none => Except.error (PyError.paramError "Table name cant be None")
  | some name =>
      let converted : Except PyError IndexType :=
        match index_type with
        | IndexTypeArg.ofInt n =>
            match IndexType.ofInt n with
            | some t => Except.ok t
            | none => Except.error PyError.valueError
        | IndexTypeArg.ofEnum t => Except.ok t
      match converted with
      | Except.error e => Except.error e
      | Except.ok t =>
          if t = IndexType.INVALID then
            Except.error (PyError.paramError
              "Illegal index_type, should be IndexType but not IndexType.INVALID")
          else
            Except.ok { _table_name := name, _index_type := t, _nlist := nlist }

/-- The worked example from the client documentation: a response with 2
queries, the first returning matches (id 1, distance 0.1) and (id 2,
distance 0.5), the second returning (id 3, distance 0.2). -/
def respEx : TopKQueryResponse :=
  { topk_query_result :=
      [ { query_result_arrays := [{ id := 1, distance := "0.1" }, { id := 2, distance := "0.5" }] },
        { query_result_arrays := [{ id := 3, distance := "0.2" }] } ] }

/-- The eager result set materialized from `respEx`. -/
def qEagerEx : TopKQueryResult :=
  { _raw := RawSource.response respEx, _async := false, _lazy := false,
    _array := createArray respEx }

/-- An async-mode result set over a future that is already complete. -/
def qAsyncEx : TopKQueryResult :=
  { _raw := RawSource.future 0 respEx, _async := true, _lazy := false, _array := [] }

/-- A raw response with 6 queries, each of which returned no matches. -/
def respSixEmpty : TopKQueryResponse :=
  { topk_query_result := List.replicate 6 { query_result_arrays := [] } }

/-- The eager result set materialized from `respSixEmpty`: 6 rows, all empty. -/
def qSixEmpty : TopKQueryResult :=
  { _raw := RawSource.response respSixEmpty, _async := false, _lazy := false,
    _array := createArray respSixEmpty }

/-- A raw response with 6 queries, each returning a single match. -/
def respBigEx : TopKQueryResponse :=
  { topk_query_result := List.replicate 6 { query_result_arrays := [{ id := 7, distance := "0.3" }] } }

/-- The eager result set materialized from `respBigEx`: 6 nonempty rows. -/
def qBigEx : TopKQueryResult :=
  { _raw := RawSource.response respBigEx, _async := false, _lazy := false,
    _array := createArray respBigEx }

/-- Eager construction (`async_` and `lazy_` both unset) from a completed raw
response always succeeds and materializes `_create_array` of the response. -/
theorem init_eager_eq (r : TopKQueryResponse) :
    TopKQueryResult.init (RawSource.response r) false false =
      some { _raw := RawSource.response r, _async := false, _lazy := false,
             _array := createArray r } := by
  simp [TopKQueryResult.init]

/-- C1: a `TopKQueryResult` eagerly materialized from a raw response with N
per-query sub-responses has `shape = (N, k_0)` where `k_0` is the match count
of the first sub-response (the column count is taken from the first row only),
`len = N`, and `shape = (0, 0)` when there are no rows. -/
theorem shape_len_spec (r : TopKQueryResponse) (q : TopKQueryResult)
    (hq : TopKQueryResult.init (RawSource.response r) false false = some q) :
    q.shape = (r.topk_query_result.length,
      match r.topk_query_result with
      | [] => 0
      | t :: _ => t.query_result_arrays.length) ∧
    q.len = r.topk_query_result.length ∧
    (r.topk_query_result = [] → q.shape = (0, 0)) := by
  rw [init_eager_eq] at hq
  cases hq
  cases hr : r.topk_query_result with
  | nil => simp [TopKQueryResult.shape, TopKQueryResult.len, createArray, hr]
  | cons t ts => simp [TopKQueryResult.shape, TopKQueryResult.len, createArray, hr]

/-- Witness for `shape_len_spec` at the documented 2-query example response. -/
theorem shape_len_spec_witness :
    qEagerEx.shape = (respEx.topk_query_result.length,
      match respEx.topk_query_result with
      | [] => 0
      | t :: _ => t.query_result_arrays.length) ∧
    qEagerEx.len = respEx.topk_query_result.length ∧
    (respEx.topk_query_result = [] → qEagerEx.shape = (0, 0)) :=
  shape_len_spec respEx qEagerEx rfl

/-- C3: eager materialization (`_create_array`) produces one row per
sub-response in the order the sub-responses appear, and each row is that
sub-response's ranked-match array copied verbatim. -/
theorem createArray_rows (r : TopKQueryResponse) :
    (createArray r).length = r.topk_query_result.length ∧
    ∀ (i : Nat) (h : i < r.topk_query_result.length),
      ∃ h2 : i < (createArray r).length,
        (createArray r).get ⟨i, h2⟩ =
          (r.topk_query_result.get ⟨i, h⟩).query_result_arrays := by
  refine ⟨by simp [createArray], ?_⟩
  intro i h
  refine ⟨by simpa [createArray] using h, ?_⟩
  simp [createArray]

/-- Witness for `createArray_rows` at the documented 2-query example
response, instantiated at row index 1. -/
theorem createArray_rows_witness :
    (createArray respEx).length = respEx.topk_query_result.length ∧
    ∃ h2 : 1 < (createArray respEx).length,
      (createArray respEx).get ⟨1, h2⟩ =
        (respEx.topk_query_result.get ⟨1, by decide⟩).query_result_arrays :=
  ⟨(createArray_rows respEx).1, (createArray_rows respEx).2 1 (by decide)⟩

/-- C4: on a materialized `TopKQueryResult` with N rows, indexing at an
integer position i with 0 ≤ i < N returns exactly the i-th sub-response's
ranked-match list, and indexing at i ≥ N fails with `IndexError`. -/
theorem getItem_spec (r : TopKQueryResponse) (q : TopKQueryResult) (i : Int)
    (hq : TopKQueryResult.init (RawSource.response r) false false = some q) :
    (∀ (h0 : 0 ≤ i) (h1 : i < (r.topk_query_result.length : Int)),
       ∃ h2 : i.toNat < r.topk_query_result.length,
         q.getItem i =
           Except.ok (r.topk_query_result.get ⟨i.toNat, h2⟩).query_result_arrays) ∧
    ((r.topk_query_result.length : Int) ≤ i →
       q.getItem i = Except.error PyError.indexError) := by
  rw [init_eager_eq] at hq
  cases hq
  have hlen : (createArray r).length = r.topk_query_result.length := by
    simp [createArray]
  constructor
  · intro h0 h1
    refine ⟨by omega, ?_⟩
    have hlt : i.toNat < (createArray r).length := by omega
    simp only [TopKQueryResult.getItem, pyGetItem]
    rw [if_neg (by omega : ¬ i < 0), if_pos h0, List.getElem?_eq_getElem hlt]
    simp [createArray]
  · intro hge
    have hn : (0 : Int) ≤ (r.topk_query_result.length : Int) := by positivity
    simp only [TopKQueryResult.getItem, pyGetItem]
    rw [if_neg (by omega : ¬ i < 0), if_pos (by omega : (0 : Int) ≤ i),
      List.getElem?_eq_none (by omega : (createArray r).length ≤ i.toNat)]

/-- Witness for `getItem_spec` at the documented 2-query example response,
instantiated at the in-range index 0 and the out-of-range index 2. -/
theorem getItem_spec_witness :
    (∃ h2 : (0 : Int).toNat < respEx.topk_query_result.length,
       qEagerEx.getItem 0 =
         Except.ok (respEx.topk_query_result.get ⟨(0 : Int).toNat, h2⟩).query_result_arrays) ∧
    qEagerEx.getItem 2 = Except.error PyError.indexError :=
  ⟨(getItem_spec respEx qEagerEx 0 rfl).1 (by decide) (by decide),
   (getItem_spec respEx qEagerEx 2 rfl).2 (by decide)⟩

/-- C10: on a materialized `TopKQueryResult` with N rows, indexing at the
negative position -k with 1 ≤ k ≤ N returns row N-k (Python end-relative
indexing) rather than failing, and only negative positions strictly below -N
fail with `IndexError`. -/
theorem getItem_negative (q : TopKQueryResult) (k : Nat)
    (h1 : 1 ≤ k) (h2 : k ≤ q._array.length) :
    (∃ h : q._array.length - k < q._array.length,
       q.getItem (-(k : Int)) = Except.ok (q._array.get ⟨q._array.length - k, h⟩)) ∧
    ∀ (j : Int), j < -((q._array.length : Int)) →
      q.getItem j = Except.error PyError.indexError := by
  constructor
  · refine ⟨by omega, ?_⟩
    have hto : (-((k : Nat) : Int) + q._array.length).toNat = q._array.length - k := by
      omega
    have hlt : q._array.length - k < q._array.length := by omega
    simp only [TopKQueryResult.getItem, pyGetItem]
    rw [if_pos (by omega : -((k : Nat) : Int) < 0),
      if_pos (by omega : (0 : Int) ≤ -((k : Nat) : Int) + q._array.length),
      hto, List.getElem?_eq_getElem hlt]
    simp
  · intro j hj
    have hn : (0 : Int) ≤ (q._array.length : Int) := by positivity
    simp only [TopKQueryResult.getItem, pyGetItem]
    rw [if_pos (by omega : j < 0), if_neg (by omega : ¬ (0 : Int) ≤ j + q._array.length)]

/-- Witness for `getItem_negative` at the documented 2-query example result,
instantiated at position -1 (the last row) and at the failing position -3. -/
theorem getItem_negative_witness :
    (∃ h : qEagerEx._array.length - 1 < qEagerEx._array.length,
       qEagerEx.getItem (-((1 : Nat) : Int)) =
         Except.ok (qEagerEx._array.get ⟨qEagerEx._array.length - 1, h⟩)) ∧
    qEagerEx.getItem (-3) = Except.error PyError.indexError :=
  ⟨(getItem_negative qEagerEx 1 (by decide) (by decide)).1,
   (getItem_negative qEagerEx 1 (by decide) (by decide)).2 (-3) (by decide)⟩

/-- C2: for an Async-mode `TopKQueryResult` (async flag set, lazy flag unset)
whose raw future completes within the timeout, `result(timeout)` returns a
new (distinct) Eager-mode `TopKQueryResult` whose materialized rows equal
those Eager construction on the completed raw response produces; for any
`TopKQueryResult` not in Async mode, `result(timeout)` returns the same
object unchanged. -/
theorem result_async_spec :
    (∀ (c : Nat) (resp : TopKQueryResponse) (timeout : Nat) (q : TopKQueryResult),
       TopKQueryResult.init (RawSource.future c resp) true false = some q →
       c ≤ timeout →
       ∃ q2, q.result timeout = Except.ok q2 ∧ q2 ≠ q ∧
         q2._async = false ∧ q2._lazy = false ∧ q2._array = createArray resp ∧
         ∀ qe, TopKQueryResult.init (RawSource.response resp) false false = some qe →
           q2._array = qe._array) ∧
    ∀ (q : TopKQueryResult) (t : Nat), q._async = false → q.result t = Except.ok q := by
  constructor
  · intro c resp timeout q hq hc
    have hq2 : q =
        { _raw := RawSource.future c resp, _async := true, _lazy := false,
          _array := [] } := by
      simpa [TopKQueryResult.init] using hq.symm
    subst hq2
    refine ⟨{ _raw := RawSource.response resp, _async := false, _lazy := false,
              _array := createArray resp }, ?_, ?_, rfl, rfl, rfl, ?_⟩
    · simp [TopKQueryResult.result, TopKQueryResult.init, hc]
    · intro h
      have := congrArg TopKQueryResult._raw h
      simp at this
    · intro qe hqe
      rw [init_eager_eq] at hqe
      cases hqe
      rfl
  · intro q t hasync
    simp [TopKQueryResult.result, hasync]

/-- Witness for `result_async_spec`: the already-completed future example
resolves with a timeout of 10, and the eager example is returned unchanged. -/
theorem result_async_spec_witness :
    (∃ q2, qAsyncEx.result 10 = Except.ok q2 ∧ q2 ≠ qAsyncEx ∧
       q2._async = false ∧ q2._lazy = false ∧ q2._array = createArray respEx ∧
       ∀ qe, TopKQueryResult.init (RawSource.response respEx) false false = some qe →
         q2._array = qe._array) ∧
    qEagerEx.result 10 = Except.ok qEagerEx :=
  ⟨result_async_spec.1 0 respEx 10 qAsyncEx rfl (by decide),
   result_async_spec.2 qEagerEx 10 rfl⟩

/-- C5: for an Async-mode `TopKQueryResult` whose raw future does not complete
before the caller-specified timeout, `result(timeout)` fails with the
`Timeout` error; no new result set is produced, and since the embedded
operation is pure and returns only the error, the result set's own fields are
untouched by the failed call. -/
theorem result_async_timeout (q : TopKQueryResult) (c timeout : Nat)
    (resp : TopKQueryResponse) (hasync : q._async = true)
    (hraw : q._raw = RawSource.future c resp) (ht : timeout < c) :
    q.result timeout = Except.error PyError.timeoutError ∧
    ∀ q2, q.result timeout ≠ Except.ok q2 := by
  have h : q.result timeout = Except.error PyError.timeoutError := by
    simp [TopKQueryResult.result, hasync, hraw, Nat.not_le.mpr ht]
  exact ⟨h, fun q2 hq2 => by simp [h] at hq2⟩

/-- Witness for `result_async_timeout`: a future completing at time 20,
resolved with a timeout of 10. -/
theorem result_async_timeout_witness :
    ({ _raw := RawSource.future 20 respEx, _async := true, _lazy := false,
       _array := [] } : TopKQueryResult).result 10 = Except.error PyError.timeoutError ∧
    ∀ q2,
      ({ _raw := RawSource.future 20 respEx, _async := true, _lazy := false,
         _array := [] } : TopKQueryResult).result 10 ≠ Except.ok q2 :=
  result_async_timeout _ 20 10 respEx rfl rfl (by decide)

/-- C9: a `TopKQueryResult` constructed in Lazy mode (lazy flag set, async
flag unset) has an empty materialized row sequence, and every subsequent
operation observes it: `result(timeout)` returns the same object without
materializing, `len` is 0, `shape` is (0, 0), indexing at any position fails
with `IndexError`, and iteration yields no rows. -/
theorem lazy_mode_empty (raw : RawSource) (q : TopKQueryResult)
    (hq : TopKQueryResult.init raw false true = some q) :
    q._array = [] ∧ (∀ t, q.result t = Except.ok q) ∧ q.len = 0 ∧
    q.shape = (0, 0) ∧
    (∀ i : Int, q.getItem i = Except.error PyError.indexError) ∧
    q.iter = [] := by
  have hq2 : q = { _raw := raw, _async := false, _lazy := true, _array := [] } := by
    simpa [TopKQueryResult.init] using hq.symm
  subst hq2
  refine ⟨rfl, ?_, rfl, rfl, ?_, rfl⟩
  · intro t
    simp [TopKQueryResult.result]
  · intro i
    simp [TopKQueryResult.getItem, pyGetItem]

/-- Witness for `lazy_mode_empty`: a lazy result set over the example
response, probed with timeout 10 and index 0. -/
theorem lazy_mode_empty_witness :
    ({ _raw := RawSource.response respEx, _async := false, _lazy := true,
       _array := [] } : TopKQueryResult)._array = [] ∧
    ({ _raw := RawSource.response respEx, _async := false, _lazy := true,
       _array := [] } : TopKQueryResult).result 10 =
      Except.ok { _raw := RawSource.response respEx, _async := false, _lazy := true,
                  _array := [] } ∧
    ({ _raw := RawSource.response respEx, _async := false, _lazy := true,
       _array := [] } : TopKQueryResult).getItem 0 = Except.error PyError.indexError := by
  have h := lazy_mode_empty (RawSource.response respEx)
    { _raw := RawSource.response respEx, _async := false, _lazy := true, _array := [] } rfl
  exact ⟨h.1, h.2.1 10, h.2.2.2.2.1 0⟩

/-- C7: `Range` construction with start_date ≤ end_date succeeds and stores
the normalized start and end dates; with start_date > end_date it fails with
`ParamError` (so no instance is produced). -/
theorem range_init_spec (start_date end_date : DateInput) :
    ((parser_range_date start_date).ordinal ≤ (parser_range_date end_date).ordinal →
       Range.init start_date end_date =
         Except.ok { start_date := parser_range_date start_date,
                     end_date := parser_range_date end_date }) ∧
    ((parser_range_date end_date).ordinal < (parser_range_date start_date).ordinal →
       Range.init start_date end_date =
         Except.error (PyError.paramError
           "The start-date should be smaller than or equal to end-date!")) := by
  constructor
  · intro hle
    simp [Range.init, is_legal_date_range, hle]
  · intro hgt
    simp [Range.init, is_legal_date_range, Int.not_le.mpr hgt]

/-- Witness for `range_init_spec` at the dates with ordinals 3 ≤ 5 (legal)
and, in the other conjunct, 5 > 3 (illegal). -/
theorem range_init_spec_witness :
    Range.init (DateInput.fromStr { ordinal := 3 }) (DateInput.fromStr { ordinal := 5 }) =
      Except.ok { start_date := parser_range_date (DateInput.fromStr { ordinal := 3 }),
                  end_date := parser_range_date (DateInput.fromStr { ordinal := 5 }) } ∧
    Range.init (DateInput.fromStr { ordinal := 5 }) (DateInput.fromStr { ordinal := 3 }) =
      Except.error (PyError.paramError
        "The start-date should be smaller than or equal to end-date!") :=
  ⟨(range_init_spec (DateInput.fromStr { ordinal := 3 })
      (DateInput.fromStr { ordinal := 5 })).1 (by decide),
   (range_init_spec (DateInput.fromStr { ordinal := 5 })
      (DateInput.fromStr { ordinal := 3 })).2 (by decide)⟩

/-- C8 counterexample: calling the `IndexParam` constructor with the empty
string as table name, a valid index type (`FLAT`) and nlist 16384 succeeds —
it does not fail with `ParamError`, because the constructor only rejects a
`None` table name, never an empty string. -/
theorem indexParam_empty_name_accepted :
    IndexParam.init (some "") (IndexTypeArg.ofEnum IndexType.FLAT) 16384 =
      Except.ok { _table_name := "", _index_type := IndexType.FLAT, _nlist := 16384 } :=
  rfl

/-- C8 (amended): `IndexParam` construction with an empty-string table name,
a valid index type and any nlist succeeds and stores the empty name;
`ParamError` is raised only for a `None` table name or for the
`IndexType.INVALID` sentinel, so an empty table name is not rejected
locally. -/
theorem indexParam_init_spec (name : String) (t : IndexType) (nlist : Int)
    (ht : t ≠ IndexType.INVALID) :
    IndexParam.init (some name) (IndexTypeArg.ofEnum t) nlist =
      Except.ok { _table_name := name, _index_type := t, _nlist := nlist } ∧
    IndexParam.init (some "") (IndexTypeArg.ofEnum t) nlist =
      Except.ok { _table_name := "", _index_type := t, _nlist := nlist } ∧
    IndexParam.init none (IndexTypeArg.ofEnum t) nlist =
      Except.error (PyError.paramError "Table name cant be None") ∧
    IndexParam.init (some name) (IndexTypeArg.ofEnum IndexType.INVALID) nlist =
      Except.error (PyError.paramError
        "Illegal index_type, should be IndexType but not IndexType.INVALID") := by
  refine ⟨?_, ?_, rfl, rfl⟩ <;> simp [IndexParam.init, ht]

/-- Witness for `indexParam_init_spec` at the name "t1", index type `FLAT`
and nlist 16384. -/
theorem indexParam_init_spec_witness :
    IndexParam.init (some "t1") (IndexTypeArg.ofEnum IndexType.FLAT) 16384 =
      Except.ok { _table_name := "t1", _index_type := IndexType.FLAT, _nlist := 16384 } ∧
    IndexParam.init (some "") (IndexTypeArg.ofEnum IndexType.FLAT) 16384 =
      Except.ok { _table_name := "", _index_type := IndexType.FLAT, _nlist := 16384 } ∧
    IndexParam.init none (IndexTypeArg.ofEnum IndexType.FLAT) 16384 =
      Except.error (PyError.paramError "Table name cant be None") ∧
    IndexParam.init (some "t1") (IndexTypeArg.ofEnum IndexType.INVALID) 16384 =
      Except.error (PyError.paramError
        "Illegal index_type, should be IndexType but not IndexType.INVALID") :=
  indexParam_init_spec "t1" IndexType.FLAT 16384 (by decide)

/-- Appending one string to a joined list of strings. -/
theorem string_join_cons (a : String) (l : List String) :
    String.join (a :: l) = a ++ String.join l := by
  simp [String.join_eq]
  rfl

/-- The bounded rendering of one row of the large-result branch, as the spec
describes it: the row's first at most 3 matches, the omission marker, and the
row's last match. -/
def boundedRowStr (row : List QueryResult) : String :=
  " [ " ++ String.intercalate ",\n   " ((row.take 3).map lamRepr)
    ++ ",\n   ..." ++ "\n   " ++ lamRepr ((row.getLast?).getD default) ++ " ]\n\n"

/-- When every row is nonempty, the `middle` loop of the large-result branch
succeeds and produces the concatenation of the bounded per-row renderings. -/
theorem bigRepr_join (rows : List (List QueryResult))
    (h : ∀ row ∈ rows, row ≠ []) :
    bigRepr rows = Except.ok (String.join (rows.map boundedRowStr)) := by
  induction rows with
  | nil => simp [bigRepr, String.join]
  | cons t ts ih =>
      obtain ⟨x, hx⟩ : ∃ x, t.getLast? = some x := by
        cases hlt : t.getLast? with
        | none => exact absurd (List.getLast?_eq_none_iff.mp hlt) (h t (by simp))
        | some x => exact ⟨x, rfl⟩
      rw [List.map_cons, string_join_cons]
      simp only [bigRepr, bigRowRepr, hx]
      rw [ih (fun r hr => h r (by simp [hr]))]
      simp [boundedRowStr, hx]

/-- C6 (amended): the human-readable rendering is bounded whenever it is
produced: when the row count is strictly greater than 5 and each of the first
3 rows is nonempty, exactly the first 3 rows are rendered, each showing its
first at most 3 matches, the omission marker, and that row's last match,
followed by the `spaces` marker; when the row count is at most 5, every row
is rendered in full with each match formatted as `(id:<id>,
distance:<distance>)`. (When the row count exceeds 5 and one of the first 3
rows is empty, rendering instead fails with `IndexError`; see the
counterexample.) -/
theorem repr_bounded (q : TopKQueryResult) :
    (5 < q.len → (∀ row ∈ q._array.take 3, row ≠ []) →
       q.pyRepr = Except.ok ("[\n" ++
         String.join ((q._array.take 3).map boundedRowStr) ++ reprSpaces ++ "\n]")) ∧
    (q.len ≤ 5 →
       q.pyRepr = Except.ok ("[\n" ++
         String.intercalate ",\n" (q._array.map fun row =>
           "[\n" ++ String.intercalate ",\n" (row.map lamRepr) ++ "\n]") ++ "\n]")) := by
  constructor
  · intro hlen hrows
    rw [TopKQueryResult.pyRepr, if_pos hlen, bigRepr_join (q._array.take 3) hrows]
  · intro hlen
    rw [TopKQueryResult.pyRepr, if_neg (by omega)]
    rfl

/-- Witness for `repr_bounded`: the 6-row example with nonempty rows for the
bounded branch, and the 2-row example for the full branch. -/
theorem repr_bounded_witness :
    qBigEx.pyRepr = Except.ok ("[\n" ++
      String.join ((qBigEx._array.take 3).map boundedRowStr) ++ reprSpaces ++ "\n]") ∧
    qEagerEx.pyRepr = Except.ok ("[\n" ++
      String.intercalate ",\n" (qEagerEx._array.map fun row =>
        "[\n" ++ String.intercalate ",\n" (row.map lamRepr) ++ "\n]") ++ "\n]") :=
  ⟨(repr_bounded qBigEx).1 (by decide) (by decide),
   (repr_bounded qEagerEx).2 (by decide)⟩

/-- C6 counterexample: an eager `TopKQueryResult` with 6 rows (row count
strictly greater than 5) whose rows are all empty produces no bounded
rendering at all — `__repr__` fails with `IndexError` (from `topk[-1]` on an
empty row), contradicting the claim that every such result set is rendered
as its first 3 truncated rows. -/
theorem repr_six_empty_fails :
    TopKQueryResult.init (RawSource.response respSixEmpty) false false = some qSixEmpty ∧
    qSixEmpty.len = 6 ∧
    qSixEmpty.pyRepr = Except.error PyError.indexError :=
  ⟨rfl, rfl, rfl⟩

end PyMilvus
